import Mathlib

/-!
Shallow embedding of the LotusWiFi decky plugin supervisor (main.py).

The Python class Plugin owns a settings map, a last-status record, a restart
counter, and at most one child-process handle.  Its public operations are
get_settings, update_settings, get_status, start_monitoring and
stop_monitoring; an output-consuming loop parses child stdout lines.

External effects (file writes, process spawn/terminate/kill, decky.emit) are
recorded in an explicit effect trace, and the points where the Python code can
raise (file I/O, script read, spawn, terminate, kill) are driven by an
explicit fault record, so that the try/except structure of the source is
reflected faithfully: each operation returns an Except value where an error
means an exception escapes to the caller.
-/

namespace LotusWiFi

/-! ## String matching machinery

Embeds the Python operations the parser uses: substring containment
(the in operator) and re.search for the two latency regexes
of the shape LITERAL then (digits(.digits)?ms).  Because the regex
pieces after each greedy digit run start with a non-digit character,
the greedy maximal-run match without backtracking is equivalent to the
Python regex semantics here. -/

/-- prefixAt pat s is true when pat occurs at the start of s
(character-wise equality). -/
def prefixAt : List Char → List Char → Bool
  | [], _ => true
  | _ :: _, [] => false
  | p :: ps, c :: cs => p = c && prefixAt ps cs

/-- occursIn pat s embeds the Python substring test pat in s. -/
def occursIn (pat : List Char) : List Char → Bool
  | [] => pat.isEmpty
  | c :: cs => prefixAt pat (c :: cs) || occursIn pat cs

/-- Maximal leading run of ASCII digits, together with the rest. -/
def takeDigits : List Char → List Char × List Char
  | [] => ([], [])
  | c :: cs =>
    if c.isDigit then
      let r := takeDigits cs
      (c :: r.1, r.2)
    else ([], c :: cs)

/-- Value of a digit string, most significant first. -/
def digitsToNat (ds : List Char) : Nat :=
  ds.foldl (fun n c => 10 * n + (c.toNat - 48)) 0

/-- Rational value of the matched latency literal: an integer part and an
optional fractional part, exactly the decimal the digits spell. -/
def ratOfParts (d1 : List Char) (d2 : Option (List Char)) : ℚ :=
  match d2 with
  | none => (digitsToNat d1 : ℚ)
  | some ds => (digitsToNat d1 : ℚ) + (digitsToNat ds : ℚ) / (10 ^ ds.length : ℚ)

/-- Match digits(.digits)?ms) at the start of s, returning the integer and
optional fractional digit groups of the regex capture group. -/
def matchNumTail (s : List Char) : Option (List Char × Option (List Char)) :=
  let r1 := takeDigits s
  if r1.1.isEmpty then none
  else
    match r1.2 with
    | '.' :: rest =>
      let r2 := takeDigits rest
      if r2.1.isEmpty then none
      else if prefixAt ['m', 's', ')'] r2.2 then some (r1.1, some r2.1) else none
    | other => if prefixAt ['m', 's', ')'] other then some (r1.1, none) else none

/-- Embeds re.search for the pattern lit(digits(.digits)?ms): scan left to
right for the first position where the literal, a digit run, an optional
fraction and the closing ms) all match. -/
def searchLatency (lit : List Char) : List Char → Option (List Char × Option (List Char))
  | [] => none
  | c :: cs =>
    match (if prefixAt lit (c :: cs) then matchNumTail (List.drop lit.length (c :: cs)) else none) with
    | some r => some r
    | none => searchLatency lit cs

/-! ## Data model -/

/-- The settings map; the source keeps it always fully populated. -/
structure Settings where
  max_latency : Int
  check_interval : Int
  ping_host : String
  enabled : Bool
deriving DecidableEq, Repr

/-- Hardcoded defaults from Plugin.__init__. -/
def defaultSettings : Settings :=
  { max_latency := 100, check_interval := 10, ping_host := "8.8.8.8", enabled := false }

/-- A partial settings map passed to update_settings: each field optional. -/
structure PartialSettings where
  max_latency : Option Int := none
  check_interval : Option Int := none
  ping_host : Option String := none
  enabled : Option Bool := none
deriving DecidableEq, Repr

/-- Embeds dict.update: fields present in the partial map overwrite. -/
def mergeSettings (s : Settings) (p : PartialSettings) : Settings :=
  { max_latency := p.max_latency.getD s.max_latency
    check_interval := p.check_interval.getD s.check_interval
    ping_host := p.ping_host.getD s.ping_host
    enabled := p.enabled.getD s.enabled }

/-- On-disk settings file contents: a JSON object that may omit keys. -/
structure SettingsFile where
  max_latency : Option Int
  check_interval : Option Int
  ping_host : Option String
  enabled : Option Bool
deriving DecidableEq, Repr

/-- Serialisation performed by _save_settings: json.dump of the full map. -/
def saveSettings (s : Settings) : SettingsFile :=
  { max_latency := some s.max_latency
    check_interval := some s.check_interval
    ping_host := some s.ping_host
    enabled := some s.enabled }

/-- Deserialisation performed by _load_settings: when the file is missing the
in-memory map mem is kept; otherwise the file keys are merged onto mem
(dict.update with the loaded JSON object). -/
def loadSettings (mem : Settings) : Option SettingsFile → Settings
  | none => mem
  | some f =>
    { max_latency := f.max_latency.getD mem.max_latency
      check_interval := f.check_interval.getD mem.check_interval
      ping_host := f.ping_host.getD mem.ping_host
      enabled := f.enabled.getD mem.enabled }

/-- Status classification strings used in last_status. -/
inductive PingStatus where
  | ok
  | high
  | failed
  | unknown
deriving DecidableEq, Repr

/-- The last_status record: replaced wholesale on each parsed event. -/
structure LastStatus where
  latency : ℚ
  status : PingStatus
  timestamp : Int
deriving DecidableEq, Repr

/-- last_status value set in Plugin.__init__. -/
def initLastStatus : LastStatus :=
  { latency := 0, status := PingStatus.unknown, timestamp := 0 }

/-- The mutable state of the Plugin instance.  script_process holds the pid of
the at-most-one live child handle. -/
structure PluginState where
  script_process : Option Nat
  is_monitoring : Bool
  settings : Settings
  last_status : LastStatus
  restart_count : Nat
deriving DecidableEq, Repr

/-- Plugin state right after __init__. -/
def initState : PluginState :=
  { script_process := none, is_monitoring := false, settings := defaultSettings
    last_status := initLastStatus, restart_count := 0 }

/-- Events delivered through decky.emit. -/
inductive Event where
  | wifi_status_changed (monitoring : Bool)
  | ping_result (payload : LastStatus)
  | wifi_restarted (count : Nat) (reason : String)
deriving DecidableEq, Repr

/-- Observable external effects of an operation, in order. -/
inductive Effect where
  | emit (e : Event)
  | fileWrite (f : SettingsFile)
  | spawn (pid : Nat)
  | terminate (pid : Nat)
  | kill (pid : Nat)
deriving DecidableEq, Repr

/-- Fault oracle: which fallible external calls raise during this operation. -/
structure Faults where
  saveFails : Bool := false
  scriptReadFails : Bool := false
  spawnFails : Bool := false
  termFails : Bool := false
  termTimesOut : Bool := false
  killFails : Bool := false
deriving DecidableEq, Repr

/-! ## Operations

Each operation returns the mutated state, the ordered effect trace, and an
Except value: Except.ok is a normal Python return, Except.error an exception
escaping to the caller. -/

/-- get_settings: pure read of the settings map. -/
def get_settings (s : PluginState) : Settings :=
  s.settings

/-- The dict built by get_status. -/
structure StatusReport where
  is_monitoring : Bool
  last_ping : LastStatus
  restart_count : Nat
  settings : Settings
deriving DecidableEq, Repr

/-- get_status: pure read of monitoring flag, last status, restart count and
settings. -/
def get_status (s : PluginState) : StatusReport :=
  { is_monitoring := s.is_monitoring, last_ping := s.last_status
    restart_count := s.restart_count, settings := s.settings }

/-- Body of _save_settings before its try/except: the json.dump write, which
raises on I/O failure. -/
def save_settings_io (st : Settings) (f : Faults) : List Effect × Except String Unit :=
  if f.saveFails then ([], Except.error "save io error")
  else ([Effect.fileWrite (saveSettings st)], Except.ok ())

/-- _save_settings: performs the write and swallows any exception, only
logging it; it never signals failure to its caller. -/
def save_settings (st : Settings) (f : Faults) : List Effect × Except String Unit :=
  let r := save_settings_io st f
  match r.2 with
  | Except.error _ => (r.1, Except.ok ())
  | Except.ok _ => r

/-- _create_configured_script: reads the script file, substitutes the current
settings into it and writes a temp copy; on failure it logs and re-raises, so
its caller sees the exception. -/
def create_configured_script (f : Faults) : Except String Unit :=
  if f.scriptReadFails then Except.error "script read failed" else Except.ok ()

/-- stop_monitoring: clears is_monitoring and enabled first, then if a child
handle exists sends SIGTERM, escalating to SIGKILL after the 5 second wait
times out, clears the handle and emits wifi_status_changed false.  Any
exception during termination is caught: the operation then returns false with
the handle not cleared and nothing emitted. -/
def stop_monitoring (s : PluginState) (f : Faults) :
    PluginState × List Effect × Except String Bool :=
  let s1 : PluginState :=
    { s with is_monitoring := false, settings := { s.settings with enabled := false } }
  match s1.script_process with
  | none => (s1, [Effect.emit (Event.wifi_status_changed false)], Except.ok true)
  | some pid =>
    if f.termFails then (s1, [], Except.ok false)
    else if f.termTimesOut then
      if f.killFails then (s1, [Effect.terminate pid], Except.ok false)
      else
        ({ s1 with script_process := none },
         [Effect.terminate pid, Effect.kill pid,
          Effect.emit (Event.wifi_status_changed false)],
         Except.ok true)
    else
      ({ s1 with script_process := none },
       [Effect.terminate pid, Effect.emit (Event.wifi_status_changed false)],
       Except.ok true)

/-- start_monitoring: no-op returning true when already monitoring; otherwise
builds the configured script copy, spawns the child, sets is_monitoring and
enabled, launches the output task and emits wifi_status_changed true.  Script
build or spawn failure is caught: is_monitoring is reset and false returned. -/
def start_monitoring (s : PluginState) (f : Faults) (pid : Nat) :
    PluginState × List Effect × Except String Bool :=
  if s.is_monitoring then (s, [], Except.ok true)
  else
    match create_configured_script f with
    | Except.error _ => ({ s with is_monitoring := false }, [], Except.ok false)
    | Except.ok _ =>
      if f.spawnFails then ({ s with is_monitoring := false }, [], Except.ok false)
      else
        ({ s with script_process := some pid, is_monitoring := true,
                  settings := { s.settings with enabled := true } },
         [Effect.spawn pid, Effect.emit (Event.wifi_status_changed true)],
         Except.ok true)

/-- update_settings: merges the partial map into settings, saves, and when
monitoring is active and one of max_latency, check_interval or ping_host
changed, stops and then restarts only if the post-stop enabled flag is true.
Its try/except turns any escaping exception into a false return. -/
def update_settings (s : PluginState) (f : Faults) (p : PartialSettings) (pid : Nat) :
    PluginState × List Effect × Except String Bool :=
  let old := s.settings
  let s1 : PluginState := { s with settings := mergeSettings s.settings p }
  let sv := save_settings s1.settings f
  match sv.2 with
  | Except.error _ => (s1, sv.1, Except.ok false)
  | Except.ok _ =>
    if s1.is_monitoring ∧ (old.max_latency ≠ s1.settings.max_latency ∨
        old.check_interval ≠ s1.settings.check_interval ∨
        old.ping_host ≠ s1.settings.ping_host) then
      let st := stop_monitoring s1 f
      match st.2.2 with
      | Except.error _ => (st.1, sv.1 ++ st.2.1, Except.ok false)
      | Except.ok _ =>
        if st.1.settings.enabled then
          let sr := start_monitoring st.1 f pid
          match sr.2.2 with
          | Except.error _ => (sr.1, sv.1 ++ st.2.1 ++ sr.2.1, Except.ok false)
          | Except.ok _ => (sr.1, sv.1 ++ st.2.1 ++ sr.2.1, Except.ok true)
        else (st.1, sv.1 ++ st.2.1, Except.ok true)
    else (s1, sv.1, Except.ok true)

/-! ## Output parser -/

/-- Marker substrings tested with the Python in operator. -/
def pingOKMark : List Char := "Ping OK".toList

/-- Literal head of the Ping OK latency regex. -/
def pingOKLit : List Char := "Ping OK (".toList

/-- High-latency marker substring. -/
def highLatMark : List Char := "High latency detected".toList

/-- Literal head of the high-latency regex. -/
def highLatLit : List Char := "High latency detected (".toList

/-- Restart marker substring. -/
def restartMark : List Char := "Restarting Wi-Fi".toList

/-- Ping-failed marker substring. -/
def pingFailMark : List Char := "Ping failed or timed out".toList

/-- _parse_script_output: classifies one stdout line by the four markers in
an elif chain, extracting the latency number for the first two via re.search;
now is int(time.time()).  Lines whose marker matches but whose number does
not parse fall through with no state change and no event. -/
def parse_script_output (s : PluginState) (now : Int) (line : String) :
    PluginState × List Effect :=
  let cs := line.toList
  if occursIn pingOKMark cs then
    match searchLatency pingOKLit cs with
    | some r =>
      let st : LastStatus := { latency := ratOfParts r.1 r.2, status := PingStatus.ok, timestamp := now }
      ({ s with last_status := st }, [Effect.emit (Event.ping_result st)])
    | none => (s, [])
  else if occursIn highLatMark cs then
    match searchLatency highLatLit cs with
    | some r =>
      let st : LastStatus := { latency := ratOfParts r.1 r.2, status := PingStatus.high, timestamp := now }
      ({ s with last_status := st }, [Effect.emit (Event.ping_result st)])
    | none => (s, [])
  else if occursIn restartMark cs then
    ({ s with restart_count := s.restart_count + 1 },
     [Effect.emit (Event.wifi_restarted (s.restart_count + 1) "High latency detected")])
  else if occursIn pingFailMark cs then
    let st : LastStatus := { latency := -1, status := PingStatus.failed, timestamp := now }
    ({ s with last_status := st }, [Effect.emit (Event.ping_result st)])
  else (s, [])

/-- The while loop of _monitor_script_output: while is_monitoring and a child
handle exists, read the next line (end of stream breaks the loop) and parse
it. -/
def monitor_loop (s : PluginState) (now : Int) : List String → PluginState × List Effect
  | [] => (s, [])
  | line :: rest =>
    if s.is_monitoring ∧ s.script_process.isSome then
      let r1 := parse_script_output s now line
      let r2 := monitor_loop r1.1 now rest
      (r2.1, r1.2 ++ r2.2)
    else (s, [])

/-- _monitor_script_output: returns immediately when no child handle exists;
otherwise consumes the stream, and in its finally block flips is_monitoring
to false and emits wifi_status_changed false when the loop ended with
is_monitoring still true. -/
def monitor_script_output (s : PluginState) (now : Int) (lines : List String) :
    PluginState × List Effect :=
  if s.script_process.isNone then (s, [])
  else
    let r := monitor_loop s now lines
    if r.1.is_monitoring then
      ({ r.1 with is_monitoring := false },
       r.2 ++ [Effect.emit (Event.wifi_status_changed false)])
    else r

/-! ## Effect counting helpers -/

/-- Is this effect the emission of wifi_status_changed false. -/
def isStopEmit : Effect → Bool
  | Effect.emit (Event.wifi_status_changed false) => true
  | _ => false

/-- Is this effect a process spawn. -/
def isSpawn : Effect → Bool
  | Effect.spawn _ => true
  | _ => false

/-- Is this effect a process-termination operation (SIGTERM or SIGKILL). -/
def isTermOp : Effect → Bool
  | Effect.terminate _ => true
  | Effect.kill _ => true
  | _ => false

/-- Number of wifi_status_changed false emissions in a trace. -/
def countStopEmits (t : List Effect) : Nat := t.countP isStopEmit

/-- Number of process spawns in a trace. -/
def countSpawns (t : List Effect) : Nat := t.countP isSpawn

/-- Number of process-termination operations in a trace. -/
def countTermOps (t : List Effect) : Nat := t.countP isTermOp

/-! ## String matching lemmas -/

theorem prefixAt_self_append (p r : List Char) : prefixAt p (p ++ r) = true := by
  induction p with
  | nil => rfl
  | cons c cs ih => simp [prefixAt, ih]

theorem occursIn_self_append (p r : List Char) : occursIn p (p ++ r) = true := by
  cases p with
  | nil => cases r <;> simp [occursIn, prefixAt, List.isEmpty]
  | cons c cs =>
    have h := prefixAt_self_append (c :: cs) r
    simp only [List.cons_append] at h ⊢
    simp [occursIn, h]

theorem occursIn_false_of_head_notMem (c : Char) (ps l : List Char) (h : c ∉ l) :
    occursIn (c :: ps) l = false := by
  induction l with
  | nil => rfl
  | cons x xs ih =>
    have hcx : c ≠ x := fun he => h (he ▸ List.mem_cons_self x xs)
    have hxs : c ∉ xs := fun hm => h (List.mem_cons_of_mem x hm)
    simp [occursIn, prefixAt, hcx, ih hxs]

theorem notMem_of_all_digit (c : Char) (hc : c.isDigit = false) (l : List Char)
    (h : ∀ a ∈ l, a.isDigit = true) : c ∉ l := by
  intro hm
  have := h c hm
  rw [hc] at this
  exact Bool.noConfusion this

theorem takeDigits_append (d r : List Char) (hd : ∀ c ∈ d, c.isDigit = true)
    (hr : ∀ x rest, r = x :: rest → x.isDigit = false) :
    takeDigits (d ++ r) = (d, r) := by
  induction d with
  | nil =>
    cases r with
    | nil => rfl
    | cons x rest => simp [takeDigits, hr x rest rfl]
  | cons c cs ih =>
    have hc : c.isDigit = true := hd c (List.mem_cons_self _ _)
    have ih2 := ih (fun a ha => hd a (List.mem_cons_of_mem _ ha))
    simp [takeDigits, hc, ih2]

theorem matchNumTail_int (d1 rest : List Char) (h1 : d1 ≠ [])
    (hd : ∀ c ∈ d1, c.isDigit = true) :
    matchNumTail (d1 ++ 'm' :: 's' :: ')' :: rest) = some (d1, none) := by
  have ht := takeDigits_append d1 ('m' :: 's' :: ')' :: rest) hd
    (by intro x r hx; injection hx with h1 h2; rw [← h1]; decide)
  have hne : d1.isEmpty = false := by cases d1 with
    | nil => exact absurd rfl h1
    | cons a as => rfl
  simp [matchNumTail, ht, hne, prefixAt]

theorem matchNumTail_frac (d1 d2 rest : List Char) (h1 : d1 ≠ []) (h2 : d2 ≠ [])
    (hd1 : ∀ c ∈ d1, c.isDigit = true) (hd2 : ∀ c ∈ d2, c.isDigit = true) :
    matchNumTail (d1 ++ '.' :: (d2 ++ 'm' :: 's' :: ')' :: rest)) = some (d1, some d2) := by
  have ht := takeDigits_append d1 ('.' :: (d2 ++ 'm' :: 's' :: ')' :: rest)) hd1
    (by intro x r hx; injection hx with ha hb; rw [← ha]; decide)
  have ht2 := takeDigits_append d2 ('m' :: 's' :: ')' :: rest) hd2
    (by intro x r hx; injection hx with ha hb; rw [← ha]; decide)
  have hne : d1.isEmpty = false := by cases d1 with
    | nil => exact absurd rfl h1
    | cons a as => rfl
  have hne2 : d2.isEmpty = false := by cases d2 with
    | nil => exact absurd rfl h2
    | cons a as => rfl
  simp [matchNumTail, ht, hne, ht2, hne2, prefixAt]

theorem searchLatency_at_head (lit tail : List Char) (r : List Char × Option (List Char))
    (hlit : lit ≠ []) (h : matchNumTail tail = some r) :
    searchLatency lit (lit ++ tail) = some r := by
  cases lit with
  | nil => exact absurd rfl hlit
  | cons c cs =>
    have hp : prefixAt (c :: cs) ((c :: cs) ++ tail) = true := prefixAt_self_append _ _
    have hd : List.drop (c :: cs).length ((c :: cs) ++ tail) = tail := List.drop_left _ _
    simp only [List.cons_append] at hp hd ⊢
    simp [searchLatency, hp, hd, h]

/-! ## Operation shape and frame lemmas -/

theorem save_settings_snd (st : Settings) (f : Faults) :
    (save_settings st f).2 = Except.ok () := by
  cases hf : f.saveFails <;> simp [save_settings, save_settings_io, hf]

theorem stop_monitoring_ok (s : PluginState) (f : Faults) :
    ∃ b, (stop_monitoring s f).2.2 = Except.ok b := by
  unfold stop_monitoring
  cases hsp : s.script_process with
  | none => exact ⟨true, rfl⟩
  | some pid =>
    simp only [hsp]
    cases f.termFails <;> cases f.termTimesOut <;> cases f.killFails <;> simp

theorem start_monitoring_ok (s : PluginState) (f : Faults) (pid : Nat) :
    ∃ b, (start_monitoring s f pid).2.2 = Except.ok b := by
  unfold start_monitoring create_configured_script
  cases s.is_monitoring <;> cases f.scriptReadFails <;> cases f.spawnFails <;> simp

theorem stop_monitoring_restart_count (s : PluginState) (f : Faults) :
    (stop_monitoring s f).1.restart_count = s.restart_count := by
  unfold stop_monitoring
  cases hsp : s.script_process with
  | none => rfl
  | some pid =>
    simp only [hsp]
    cases f.termFails <;> cases f.termTimesOut <;> cases f.killFails <;> simp

theorem start_monitoring_restart_count (s : PluginState) (f : Faults) (pid : Nat) :
    (start_monitoring s f pid).1.restart_count = s.restart_count := by
  unfold start_monitoring create_configured_script
  cases s.is_monitoring <;> cases f.scriptReadFails <;> cases f.spawnFails <;> simp

theorem update_settings_ok (s : PluginState) (f : Faults) (p : PartialSettings) (pid : Nat) :
    ∃ b, (update_settings s f p pid).2.2 = Except.ok b := by
  unfold update_settings
  dsimp only
  have hs := save_settings_snd (mergeSettings s.settings p) f
  split
  · next heq => rw [hs] at heq; cases heq
  · split
    · obtain ⟨b, hb⟩ := stop_monitoring_ok { s with settings := mergeSettings s.settings p } f
      split
      · next heq => rw [hb] at heq; cases heq
      · split
        · obtain ⟨b2, hb2⟩ :=
            start_monitoring_ok (stop_monitoring { s with settings := mergeSettings s.settings p } f).1 f pid
          split
          · next heq => rw [hb2] at heq; cases heq
          · exact ⟨true, rfl⟩
        · exact ⟨true, rfl⟩
    · exact ⟨true, rfl⟩

theorem update_settings_restart_count (s : PluginState) (f : Faults) (p : PartialSettings)
    (pid : Nat) : (update_settings s f p pid).1.restart_count = s.restart_count := by
  unfold update_settings
  dsimp only
  split
  · rfl
  · split
    · split
      · exact stop_monitoring_restart_count _ f
      · split
        · split
          · rw [start_monitoring_restart_count, stop_monitoring_restart_count]
          · rw [start_monitoring_restart_count, stop_monitoring_restart_count]
        · exact stop_monitoring_restart_count _ f
    · rfl

theorem countStopEmits_append (a b : List Effect) :
    countStopEmits (a ++ b) = countStopEmits a + countStopEmits b :=
  List.countP_append _ _ _

theorem parse_frame (s : PluginState) (now : Int) (line : String) :
    (parse_script_output s now line).1.is_monitoring = s.is_monitoring ∧
    (parse_script_output s now line).1.script_process = s.script_process ∧
    countStopEmits (parse_script_output s now line).2 = 0 := by
  unfold parse_script_output
  dsimp only
  split
  · split <;> simp [countStopEmits, isStopEmit]
  · split
    · split <;> simp [countStopEmits, isStopEmit]
    · split
      · simp [countStopEmits, isStopEmit]
      · split <;> simp [countStopEmits, isStopEmit]

theorem parse_restart_count_mono (s : PluginState) (now : Int) (line : String) :
    s.restart_count ≤ (parse_script_output s now line).1.restart_count := by
  unfold parse_script_output
  dsimp only
  split
  · split <;> simp
  · split
    · split <;> simp
    · split
      · simp
      · split <;> simp

theorem monitor_loop_frame (now : Int) (lines : List String) (s : PluginState) :
    (monitor_loop s now lines).1.is_monitoring = s.is_monitoring ∧
    countStopEmits (monitor_loop s now lines).2 = 0 ∧
    s.restart_count ≤ (monitor_loop s now lines).1.restart_count := by
  induction lines generalizing s with
  | nil => simp [monitor_loop, countStopEmits]
  | cons line rest ih =>
    unfold monitor_loop
    dsimp only
    split
    · obtain ⟨h1, _h2, h3⟩ := parse_frame s now line
      have h4 := parse_restart_count_mono s now line
      obtain ⟨i1, i2, i3⟩ := ih (parse_script_output s now line).1
      refine ⟨by rw [i1, h1], ?_, le_trans h4 i3⟩
      rw [countStopEmits_append, h3, i2]
    · simp [countStopEmits]

theorem stop_monitoring_none (s : PluginState) (f : Faults) (h : s.script_process = none) :
    stop_monitoring s f =
      ({ s with is_monitoring := false, settings := { s.settings with enabled := false } },
       [Effect.emit (Event.wifi_status_changed false)], Except.ok true) := by
  unfold stop_monitoring
  dsimp only
  rw [h]

/-! ## Claim theorems -/

/-- Claim C8: saving the settings map and then loading yields the identical
map, and loading when the settings file does not exist keeps the in-memory
defaults, which are the hardcoded values max_latency 100, check_interval 10,
ping_host 8.8.8.8, enabled false. -/
theorem c8_settings_round_trip :
    (∀ s mem : Settings, loadSettings mem (some (saveSettings s)) = s) ∧
    loadSettings defaultSettings none = defaultSettings ∧
    defaultSettings =
      { max_latency := 100, check_interval := 10, ping_host := "8.8.8.8", enabled := false } :=
  ⟨fun _ _ => rfl, rfl, rfl⟩

/-- Claim C9: for every state, partial-settings input and combination of
internal failures (file I/O, script read, spawn, termination), each public
operation returns a boolean or a value through Except.ok and never lets an
exception escape to the caller. -/
theorem c9_public_ops_total :
    ∀ (s : PluginState) (f : Faults) (p : PartialSettings) (pid : Nat),
      (∃ b, (update_settings s f p pid).2.2 = Except.ok b) ∧
      (∃ b, (start_monitoring s f pid).2.2 = Except.ok b) ∧
      (∃ b, (stop_monitoring s f).2.2 = Except.ok b) ∧
      get_settings s = s.settings ∧
      get_status s = { is_monitoring := s.is_monitoring, last_ping := s.last_status,
                       restart_count := s.restart_count, settings := s.settings } :=
  fun s f p pid =>
    ⟨update_settings_ok s f p pid, start_monitoring_ok s f pid, stop_monitoring_ok s f,
     rfl, rfl⟩

/-- Claim C5: stop_monitoring with no child handle returns true, performs no
process-termination operations, clears enabled and is_monitoring, emits
wifi_status_changed false, and is idempotent: a second call returns true again
and leaves the state fixed. -/
theorem c5_stop_never_started (s : PluginState) (f : Faults)
    (h : s.script_process = none) :
    stop_monitoring s f =
      ({ s with is_monitoring := false, settings := { s.settings with enabled := false } },
       [Effect.emit (Event.wifi_status_changed false)], Except.ok true) ∧
    countTermOps (stop_monitoring s f).2.1 = 0 ∧
    stop_monitoring (stop_monitoring s f).1 f =
      ((stop_monitoring s f).1,
       [Effect.emit (Event.wifi_status_changed false)], Except.ok true) := by
  have h1 := stop_monitoring_none s f h
  have hsp2 : (stop_monitoring s f).1.script_process = none := by rw [h1]; exact h
  have h2 := stop_monitoring_none (stop_monitoring s f).1 f hsp2
  refine ⟨h1, by rw [h1]; rfl, ?_⟩
  rw [h2, h1]

/-- Witness for C5 at the freshly initialised plugin state. -/
theorem c5_stop_never_started_witness :
    stop_monitoring initState ({} : Faults) =
      ({ initState with is_monitoring := false, settings := { initState.settings with enabled := false } },
       [Effect.emit (Event.wifi_status_changed false)], Except.ok true) ∧
    countTermOps (stop_monitoring initState ({} : Faults)).2.1 = 0 ∧
    stop_monitoring (stop_monitoring initState ({} : Faults)).1 ({} : Faults) =
      ((stop_monitoring initState ({} : Faults)).1,
       [Effect.emit (Event.wifi_status_changed false)], Except.ok true) :=
  c5_stop_never_started initState ({} : Faults) rfl

/-- Claim C4: with the script readable and the spawn succeeding, calling
start_monitoring twice in a row returns true both times; the second call is a
no-op with an empty effect trace, the final state is monitoring with a child
handle present, and at most one spawn happens across the two calls.  The
hypothesis hinv is the reachable-state invariant that an active monitor owns
a child handle. -/
theorem c4_start_twice (s : PluginState) (f : Faults) (pid : Nat)
    (hread : f.scriptReadFails = false) (hspawn : f.spawnFails = false)
    (hinv : s.is_monitoring = true → s.script_process.isSome = true) :
    (start_monitoring s f pid).2.2 = Except.ok true ∧
    start_monitoring (start_monitoring s f pid).1 f pid =
      ((start_monitoring s f pid).1, [], Except.ok true) ∧
    (start_monitoring s f pid).1.is_monitoring = true ∧
    (start_monitoring s f pid).1.script_process.isSome = true ∧
    countSpawns ((start_monitoring s f pid).2.1 ++
      (start_monitoring (start_monitoring s f pid).1 f pid).2.1) ≤ 1 := by
  have hstart : ∀ t : PluginState, t.is_monitoring = true →
      start_monitoring t f pid = (t, [], Except.ok true) := by
    intro t ht
    unfold start_monitoring
    rw [ht]
    rfl
  cases hm : s.is_monitoring with
  | true =>
    have h1 := hstart s hm
    have h2 : (start_monitoring s f pid).1 = s := by rw [h1]
    have h3 : start_monitoring (start_monitoring s f pid).1 f pid = (s, [], Except.ok true) := by
      rw [h2]
      exact h1
    refine ⟨by simp [h1], by rw [h3, h2], by simp [h2, hm], by simp [h2]; exact hinv hm, ?_⟩
    rw [h3, h1]
    simp [countSpawns]
  | false =>
    have h1 : start_monitoring s f pid =
        ({ s with script_process := some pid, is_monitoring := true,
                  settings := { s.settings with enabled := true } },
         [Effect.spawn pid, Effect.emit (Event.wifi_status_changed true)],
         Except.ok true) := by
      unfold start_monitoring create_configured_script
      rw [hm, hread, hspawn]
      rfl
    have h2 : (start_monitoring s f pid).1.is_monitoring = true := by simp [h1]
    have h4 := hstart _ h2
    refine ⟨by simp [h1], h4, h2, by simp [h1], ?_⟩
    rw [h4, h1]
    simp [countSpawns, isSpawn, List.countP_cons]

/-- Witness for C4 at the freshly initialised plugin state. -/
theorem c4_start_twice_witness :
    (start_monitoring initState ({} : Faults) 5).2.2 = Except.ok true ∧
    start_monitoring (start_monitoring initState ({} : Faults) 5).1 ({} : Faults) 5 =
      ((start_monitoring initState ({} : Faults) 5).1, [], Except.ok true) ∧
    (start_monitoring initState ({} : Faults) 5).1.is_monitoring = true ∧
    (start_monitoring initState ({} : Faults) 5).1.script_process.isSome = true ∧
    countSpawns ((start_monitoring initState ({} : Faults) 5).2.1 ++
      (start_monitoring (start_monitoring initState ({} : Faults) 5).1 ({} : Faults) 5).2.1) ≤ 1 :=
  c4_start_twice initState ({} : Faults) 5 rfl rfl (by decide)

/-- Claim C10: update_settings that only sets enabled to true while monitoring
is inactive merges and persists the setting, and never starts the child
process: monitoring flag, child handle, last status and restart count are all
unchanged and no spawn happens. -/
theorem c10_enable_only_frame (s : PluginState) (f : Faults) (pid : Nat)
    (hmon : s.is_monitoring = false) (hsave : f.saveFails = false) :
    update_settings s f { enabled := some true } pid =
      ({ s with settings := { s.settings with enabled := true } },
       [Effect.fileWrite (saveSettings { s.settings with enabled := true })],
       Except.ok true) ∧
    (update_settings s f { enabled := some true } pid).1.is_monitoring = false ∧
    (update_settings s f { enabled := some true } pid).1.script_process = s.script_process ∧
    (update_settings s f { enabled := some true } pid).1.last_status = s.last_status ∧
    (update_settings s f { enabled := some true } pid).1.restart_count = s.restart_count ∧
    countSpawns (update_settings s f { enabled := some true } pid).2.1 = 0 := by
  have h1 : update_settings s f { enabled := some true } pid =
      ({ s with settings := { s.settings with enabled := true } },
       [Effect.fileWrite (saveSettings { s.settings with enabled := true })],
       Except.ok true) := by
    unfold update_settings
    dsimp only
    simp [save_settings, save_settings_io, hsave, hmon, mergeSettings]
  refine ⟨h1, by rw [h1]; exact hmon, by rw [h1], by rw [h1], by rw [h1], ?_⟩
  rw [h1]
  simp [countSpawns, isSpawn]

/-- Witness for C10 at the freshly initialised plugin state. -/
theorem c10_enable_only_frame_witness :
    update_settings initState ({} : Faults) { enabled := some true } 3 =
      ({ initState with settings := { initState.settings with enabled := true } },
       [Effect.fileWrite (saveSettings { initState.settings with enabled := true })],
       Except.ok true) ∧
    (update_settings initState ({} : Faults) { enabled := some true } 3).1.is_monitoring = false ∧
    (update_settings initState ({} : Faults) { enabled := some true } 3).1.script_process = initState.script_process ∧
    (update_settings initState ({} : Faults) { enabled := some true } 3).1.last_status = initState.last_status ∧
    (update_settings initState ({} : Faults) { enabled := some true } 3).1.restart_count = initState.restart_count ∧
    countSpawns (update_settings initState ({} : Faults) { enabled := some true } 3).2.1 = 0 :=
  c10_enable_only_frame initState ({} : Faults) 3 rfl rfl

/-- Claim C1 counterexample: with the settings-file write failing with an I/O
error, update_settings still returns true (the claim says false) while the
in-memory settings hold the merged fields. -/
theorem c1_save_fail_counterexample :
    (update_settings initState { saveFails := true } { max_latency := some 50 } 0).2.2 =
      Except.ok true ∧
    (update_settings initState { saveFails := true } { max_latency := some 50 } 0).1.settings =
      { defaultSettings with max_latency := 50 } :=
  ⟨rfl, rfl⟩

/-- Claim C1 amended: when persistence fails with an I/O error the save
routine logs and swallows it, so update_settings still returns true, writes
nothing, and the in-memory settings remain updated with the merged fields
(stated on the non-reconfig path, monitoring inactive). -/
theorem c1_save_fail_amended (s : PluginState) (f : Faults) (p : PartialSettings) (pid : Nat)
    (hmon : s.is_monitoring = false) (hsave : f.saveFails = true) :
    update_settings s f p pid =
      ({ s with settings := mergeSettings s.settings p }, [], Except.ok true) := by
  unfold update_settings
  dsimp only
  simp [save_settings, save_settings_io, hsave, hmon]

/-- Witness for the amended C1. -/
theorem c1_save_fail_amended_witness :
    update_settings initState { saveFails := true } { max_latency := some 50 } 0 =
      ({ initState with settings := mergeSettings initState.settings { max_latency := some 50 } },
       [], Except.ok true) :=
  c1_save_fail_amended initState { saveFails := true } { max_latency := some 50 } 0 rfl rfl

/-- A monitoring state with a live child and enabled true, reachable right
after a successful start_monitoring from the initial state. -/
def preUpdateState : PluginState :=
  { initState with is_monitoring := true, script_process := some 1,
                   settings := { defaultSettings with enabled := true } }

/-- Claim C2: changing only ping_host while monitoring is active stops the
child but never restarts it, because stop_monitoring clears enabled before
update_settings checks it: the call returns true, terminates the child once,
spawns nothing, and leaves monitoring off with no child handle.  Changing only
enabled from true to false takes the plain path: no termination, monitoring
still on.  This exhibits the divergence from the documented
stop-then-restart behavior. -/
theorem c2_reconfig_never_restarts :
    ((update_settings preUpdateState {} { ping_host := some "1.1.1.1" } 42).2.2 = Except.ok true ∧
     (update_settings preUpdateState {} { ping_host := some "1.1.1.1" } 42).1.is_monitoring = false ∧
     (update_settings preUpdateState {} { ping_host := some "1.1.1.1" } 42).1.script_process = none ∧
     (update_settings preUpdateState {} { ping_host := some "1.1.1.1" } 42).1.settings.enabled = false ∧
     countTermOps (update_settings preUpdateState {} { ping_host := some "1.1.1.1" } 42).2.1 = 1 ∧
     countSpawns (update_settings preUpdateState {} { ping_host := some "1.1.1.1" } 42).2.1 = 0) ∧
    ((update_settings preUpdateState {} { enabled := some false } 42).1.is_monitoring = true ∧
     countTermOps (update_settings preUpdateState {} { enabled := some false } 42).2.1 = 0) :=
  ⟨⟨rfl, rfl, rfl, rfl, rfl, rfl⟩, rfl, rfl⟩

/-- Character list of the regex capture group: integer digits with an
optional fractional part. -/
def numChars (d1 : List Char) (d2 : Option (List Char)) : List Char :=
  match d2 with
  | none => d1
  | some ds => d1 ++ '.' :: ds

theorem toList_mk (l : List Char) : (String.mk l).toList = l := rfl

theorem matchNumTail_numChars (d1 : List Char) (d2 : Option (List Char)) (h1 : d1 ≠ [])
    (hd1 : ∀ c ∈ d1, c.isDigit = true) (h2 : ∀ ds, d2 = some ds → ds ≠ [])
    (hd2 : ∀ ds, d2 = some ds → ∀ c ∈ ds, c.isDigit = true) :
    matchNumTail (numChars d1 d2 ++ "ms)".toList) = some (d1, d2) := by
  cases d2 with
  | none => exact matchNumTail_int d1 [] h1 hd1
  | some ds =>
    show matchNumTail ((d1 ++ '.' :: ds) ++ "ms)".toList) = some (d1, some ds)
    rw [List.append_assoc, List.cons_append]
    exact matchNumTail_frac d1 ds [] h1 (h2 ds rfl) hd1 (hd2 ds rfl)

theorem pchar_notMem_tail (d1 : List Char) (d2 : Option (List Char))
    (hd1 : ∀ c ∈ d1, c.isDigit = true)
    (hd2 : ∀ ds, d2 = some ds → ∀ c ∈ ds, c.isDigit = true) :
    'P' ∉ numChars d1 d2 ++ "ms)".toList := by
  intro hmem
  rw [List.mem_append] at hmem
  cases hmem with
  | inl h =>
    cases hds : d2 with
    | none =>
      rw [hds] at h
      exact notMem_of_all_digit 'P' (by decide) d1 hd1 h
    | some ds =>
      rw [hds] at h
      show False
      rw [show numChars d1 (some ds) = d1 ++ '.' :: ds from rfl, List.mem_append] at h
      cases h with
      | inl h => exact notMem_of_all_digit 'P' (by decide) d1 hd1 h
      | inr h =>
        rw [List.mem_cons] at h
        cases h with
        | inl h => exact absurd h (by decide)
        | inr h => exact notMem_of_all_digit 'P' (by decide) ds (hd2 ds hds) h
  | inr h => exact absurd h (by decide)

/-- Claim C6: a line of the exact form Ping OK (Nms) with N an integer or
decimal digit string replaces last_status with latency N, status ok and the
current timestamp and emits ping_result with that payload; the analogous
High latency detected (Nms) line yields status high; and any line carrying
one of those markers but no parseable number for either pattern leaves the
state unchanged and emits nothing. -/
theorem c6_latency_line_parsing (s : PluginState) (now : Int)
    (d1 : List Char) (d2 : Option (List Char)) (h1 : d1 ≠ [])
    (hd1 : ∀ c ∈ d1, c.isDigit = true)
    (h2 : ∀ ds, d2 = some ds → ds ≠ [])
    (hd2 : ∀ ds, d2 = some ds → ∀ c ∈ ds, c.isDigit = true) :
    parse_script_output s now (String.mk (pingOKLit ++ numChars d1 d2 ++ "ms)".toList)) =
      ({ s with last_status := { latency := ratOfParts d1 d2, status := PingStatus.ok, timestamp := now } },
       [Effect.emit (Event.ping_result { latency := ratOfParts d1 d2, status := PingStatus.ok, timestamp := now })]) ∧
    parse_script_output s now (String.mk (highLatLit ++ numChars d1 d2 ++ "ms)".toList)) =
      ({ s with last_status := { latency := ratOfParts d1 d2, status := PingStatus.high, timestamp := now } },
       [Effect.emit (Event.ping_result { latency := ratOfParts d1 d2, status := PingStatus.high, timestamp := now })]) ∧
    (∀ line : String,
      (occursIn pingOKMark line.toList = true ∨ occursIn highLatMark line.toList = true) →
      searchLatency pingOKLit line.toList = none →
      searchLatency highLatLit line.toList = none →
      parse_script_output s now line = (s, [])) := by
  have hmt := matchNumTail_numChars d1 d2 h1 hd1 h2 hd2
  refine ⟨?_, ?_, ?_⟩
  · have hocc : occursIn pingOKMark (pingOKLit ++ (numChars d1 d2 ++ "ms)".toList)) = true := by
      have he : pingOKLit ++ (numChars d1 d2 ++ "ms)".toList) =
          pingOKMark ++ ([' ', '('] ++ (numChars d1 d2 ++ "ms)".toList)) := by
        rw [show pingOKLit = pingOKMark ++ [' ', '('] from rfl, List.append_assoc]
      rw [he]
      exact occursIn_self_append _ _
    have hsr := searchLatency_at_head pingOKLit (numChars d1 d2 ++ "ms)".toList) (d1, d2)
      (by decide) hmt
    unfold parse_script_output
    rw [toList_mk]
    dsimp only
    rw [List.append_assoc, hocc, if_pos rfl, hsr]
  · have hPm : 'P' ∉ highLatLit ++ (numChars d1 d2 ++ "ms)".toList) := by
      intro hmem
      rw [List.mem_append] at hmem
      cases hmem with
      | inl h => exact absurd h (by decide)
      | inr h => exact pchar_notMem_tail d1 d2 hd1 hd2 h
    have hoccP : occursIn pingOKMark (highLatLit ++ (numChars d1 d2 ++ "ms)".toList)) = false :=
      occursIn_false_of_head_notMem 'P' ("ing OK".toList) _ hPm
    have hoccH : occursIn highLatMark (highLatLit ++ (numChars d1 d2 ++ "ms)".toList)) = true := by
      have he : highLatLit ++ (numChars d1 d2 ++ "ms)".toList) =
          highLatMark ++ ([' ', '('] ++ (numChars d1 d2 ++ "ms)".toList)) := by
        rw [show highLatLit = highLatMark ++ [' ', '('] from rfl, List.append_assoc]
      rw [he]
      exact occursIn_self_append _ _
    have hsr := searchLatency_at_head highLatLit (numChars d1 d2 ++ "ms)".toList) (d1, d2)
      (by decide) hmt
    unfold parse_script_output
    rw [toList_mk]
    dsimp only
    rw [List.append_assoc, hoccP, if_neg Bool.false_ne_true, hoccH, if_pos rfl, hsr]
  · intro line hmark hs1 hs2
    unfold parse_script_output
    dsimp only
    cases hPO : occursIn pingOKMark line.toList with
    | true => rw [if_pos rfl, hs1]
    | false =>
      have hH : occursIn highLatMark line.toList = true := by
        cases hmark with
        | inl h => rw [h] at hPO; cases hPO
        | inr h => exact h
      rw [if_neg Bool.false_ne_true, hH, if_pos rfl, hs2]

/-- Witness for C6 on the Ping OK 42ms line. -/
theorem c6_latency_line_parsing_witness :
    parse_script_output initState 7 (String.mk (pingOKLit ++ numChars ['4', '2'] none ++ "ms)".toList)) =
      ({ initState with last_status := { latency := ratOfParts ['4', '2'] none, status := PingStatus.ok, timestamp := 7 } },
       [Effect.emit (Event.ping_result { latency := ratOfParts ['4', '2'] none, status := PingStatus.ok, timestamp := 7 })]) :=
  (c6_latency_line_parsing initState 7 ['4', '2'] none (by decide) (by decide)
    (fun ds h => nomatch h) (fun ds h => nomatch h)).1

theorem monitor_output_restart_mono (s : PluginState) (now : Int) (lines : List String) :
    s.restart_count ≤ (monitor_script_output s now lines).1.restart_count := by
  unfold monitor_script_output
  dsimp only
  split
  · exact le_refl _
  · obtain ⟨_, _, l3⟩ := monitor_loop_frame now lines s
    split
    · exact l3
    · exact l3

/-- Claim C7 counterexample: the line Ping OK Restarting Wi-Fi contains the
Restarting Wi-Fi marker, yet parsing it leaves restart_count unchanged and
emits nothing, because the elif chain classifies it by the earlier Ping OK
marker whose number extraction fails. -/
theorem c7_restart_line_counterexample :
    occursIn restartMark "Ping OK Restarting Wi-Fi".toList = true ∧
    parse_script_output initState 7 "Ping OK Restarting Wi-Fi" = (initState, []) := by
  constructor
  · decide
  · rfl

/-- Claim C7 amended: restart_count never decreases across any supervisor
operation, and a line containing Restarting Wi-Fi and neither of the earlier
markers Ping OK and High latency detected increments restart_count by exactly
one and emits wifi_restarted with the new count. -/
theorem c7_restart_count_monotone_and_increment :
    (∀ (s : PluginState) (f : Faults) (p : PartialSettings) (pid : Nat),
      s.restart_count ≤ (update_settings s f p pid).1.restart_count) ∧
    (∀ (s : PluginState) (f : Faults) (pid : Nat),
      s.restart_count ≤ (start_monitoring s f pid).1.restart_count) ∧
    (∀ (s : PluginState) (f : Faults),
      s.restart_count ≤ (stop_monitoring s f).1.restart_count) ∧
    (∀ (s : PluginState) (now : Int) (line : String),
      s.restart_count ≤ (parse_script_output s now line).1.restart_count) ∧
    (∀ (s : PluginState) (now : Int) (lines : List String),
      s.restart_count ≤ (monitor_script_output s now lines).1.restart_count) ∧
    (∀ (s : PluginState) (now : Int) (line : String),
      occursIn restartMark line.toList = true →
      occursIn pingOKMark line.toList = false →
      occursIn highLatMark line.toList = false →
      parse_script_output s now line =
        ({ s with restart_count := s.restart_count + 1 },
         [Effect.emit (Event.wifi_restarted (s.restart_count + 1) "High latency detected")])) := by
  refine ⟨?_, ?_, ?_, ?_, ?_, ?_⟩
  · intro s f p pid
    rw [update_settings_restart_count]
  · intro s f pid
    rw [start_monitoring_restart_count]
  · intro s f
    rw [stop_monitoring_restart_count]
  · intro s now line
    exact parse_restart_count_mono s now line
  · intro s now lines
    exact monitor_output_restart_mono s now lines
  · intro s now line hres hping hhigh
    unfold parse_script_output
    dsimp only
    rw [hping, if_neg Bool.false_ne_true, hhigh, if_neg Bool.false_ne_true, hres, if_pos rfl]

/-- Witness for the amended C7 on the Restarting Wi-Fi now line. -/
theorem c7_restart_count_witness :
    parse_script_output initState 7 "Restarting Wi-Fi now" =
      ({ initState with restart_count := 1 },
       [Effect.emit (Event.wifi_restarted 1 "High latency detected")]) :=
  c7_restart_count_monotone_and_increment.2.2.2.2.2 initState 7 "Restarting Wi-Fi now"
    (by decide) (by decide) (by decide)

/-- Claim C3: when the child output stream ends while is_monitoring is still
true (with a child handle present), the output-consuming task itself flips
is_monitoring to false and the whole task trace contains exactly one
wifi_status_changed false emission. -/
theorem c3_child_exit_flips_monitoring (s : PluginState) (now : Int) (lines : List String)
    (hm : s.is_monitoring = true) (hp : s.script_process.isSome = true) :
    (monitor_script_output s now lines).1.is_monitoring = false ∧
    countStopEmits (monitor_script_output s now lines).2 = 1 := by
  have hiso : s.script_process.isNone = false := by
    cases hsp : s.script_process with
    | none => rw [hsp] at hp; cases hp
    | some pid => rfl
  obtain ⟨l1, l2, _l3⟩ := monitor_loop_frame now lines s
  have hcond : (monitor_loop s now lines).1.is_monitoring = true := by rw [l1, hm]
  have hshape : monitor_script_output s now lines =
      ({ (monitor_loop s now lines).1 with is_monitoring := false },
       (monitor_loop s now lines).2 ++ [Effect.emit (Event.wifi_status_changed false)]) := by
    unfold monitor_script_output
    dsimp only
    rw [hiso, if_neg Bool.false_ne_true, hcond, if_pos rfl]
  rw [hshape]
  constructor
  · rfl
  · rw [countStopEmits_append, l2]
    rfl

/-- Witness for C3: a monitoring state whose two-line stream ends. -/
theorem c3_child_exit_witness :
    (monitor_script_output { initState with is_monitoring := true, script_process := some 1 } 3
      ["Ping OK (42ms)", "junk"]).1.is_monitoring = false ∧
    countStopEmits (monitor_script_output { initState with is_monitoring := true, script_process := some 1 } 3
      ["Ping OK (42ms)", "junk"]).2 = 1 :=
  c3_child_exit_flips_monitoring { initState with is_monitoring := true, script_process := some 1 }
    3 ["Ping OK (42ms)", "junk"] rfl rfl

end LotusWiFi
